import Mathlib

/-!
Verification of the sniff tunnel broker, OAuth controller, tunnel client and
webhook ingress. Each definition is a shallow embedding of the corresponding
TypeScript function; external effects (HTTP fetches, JSON parsing, HMAC) are
passed in as explicit parameters or modelled as option-valued inputs, and
durable-storage writes are returned as an explicit write log.
-/

namespace Sniff

/-! ## Data model (OrgState, sessions, wire messages) -/

/-- A registered user of a tenant: `{userId, email, name}`. -/
structure OrgUser where
  userId : String
  email : String
  name : String
deriving DecidableEq

/-- The org agent token persisted by the broker.  `expiresAt` is a millisecond
epoch timestamp; `none` models the field being absent (`undefined`). -/
structure AgentToken where
  accessToken : String
  refreshToken : String
  expiresAt : Option Int
  scope : String
deriving DecidableEq

/-- Persisted tenant state: optional agent (trust) token plus the registered
user map, embedded as an association list keyed by `userId`. -/
structure OrgState where
  agentToken : Option AgentToken
  users : List (String × OrgUser)
deriving DecidableEq

/-- `users[k]`: association-list lookup mirroring JS record indexing. -/
def lookupUser : List (String × OrgUser) → String → Option OrgUser
  | [], _ => none
  | p :: rest, k => if p.1 == k then some p.2 else lookupUser rest k

/-- `users[u.userId] = u`: replace the entry in place if the key is present,
append otherwise (JS record assignment). -/
def insertUser : List (String × OrgUser) → OrgUser → List (String × OrgUser)
  | [], u => [(u.userId, u)]
  | p :: rest, u =>
    if p.1 == u.userId then (u.userId, u) :: rest else p :: insertUser rest u

/-- WebSocket attachment tracking the authentication status of a session. -/
structure WsAttachment where
  authenticated : Bool
  userId : Option String
  email : Option String
deriving DecidableEq

/-- Payload of an `auth` message from the CLI. -/
structure AuthPayload where
  organizationId : String
  userId : String
  email : String
deriving DecidableEq

/-- The `auth_response` envelope sent back on the session socket. -/
structure AuthResponseMsg where
  success : Bool
  error : Option String
  organizationId : Option String
deriving DecidableEq

/-- A write to Durable Object storage (a `storage.put` of the org state
record). -/
inductive StorageWrite
  | putOrgState (st : OrgState)
deriving DecidableEq

/-! ## Tenant broker: auth handshake and user registration -/

/-- Everything `handleAuth` leaves behind: the (possibly updated) org state,
the storage writes it performed, the new session attachment, and the
`auth_response` it sent. -/
structure AuthResult where
  orgState : OrgState
  writes : List StorageWrite
  attachment : WsAttachment
  response : AuthResponseMsg
deriving DecidableEq

/-- `ConnectionHandler.handleAuth`: reject when the org has no agent token,
reject when the user is not registered, otherwise mark the session
authenticated and store `{userId, email}` on its attachment. -/
def handleAuth (st : OrgState) (att : WsAttachment) (payload : AuthPayload) :
    AuthResult :=
  match st.agentToken with
  | none =>
    ⟨st, [], att, ⟨false, some "Organization not configured", none⟩⟩
  | some _ =>
    match lookupUser st.users payload.userId with
    | none => ⟨st, [], att, ⟨false, some "User not registered", none⟩⟩
    | some _ =>
      ⟨st, [],
        ⟨true, some payload.userId, some payload.email⟩,
        ⟨true, none, some payload.organizationId⟩⟩

/-- Result of a direct state mutation (register-user / set-org-token). -/
structure MutateResult where
  orgState : OrgState
  writes : List StorageWrite
deriving DecidableEq

/-- `ConnectionHandler.handleRegisterUser`: store the user under its id and
persist the state. -/
def handleRegisterUser (st : OrgState) (u : OrgUser) : MutateResult :=
  let st' : OrgState := { st with users := insertUser st.users u }
  ⟨st', [StorageWrite.putOrgState st']⟩

/-- `ConnectionHandler.handleSetOrgToken`: replace the agent token and persist
the state. -/
def handleSetOrgToken (st : OrgState) (t : Option AgentToken) : MutateResult :=
  let st' : OrgState := { st with agentToken := t }
  ⟨st', [StorageWrite.putOrgState st']⟩

/-! ## Supporting lemmas on the user map -/

theorem lookupUser_insertUser (users : List (String × OrgUser)) (u : OrgUser) :
    lookupUser (insertUser users u) u.userId = some u := by
  induction users with
  | nil => simp [insertUser, lookupUser]
  | cons p rest ih =>
    by_cases h : p.1 == u.userId
    · simp [insertUser, h, lookupUser]
    · simp only [insertUser, h, if_false, Bool.false_eq_true, lookupUser]
      exact ih

/-! ## Tenant broker: webhook routing -/

/-- Index of the first list element satisfying `p` (the JS `Array.find`
pattern, tracked by position so the delivery target is identified). -/
def findFirstIdx {α : Type} (p : α → Bool) : List α → Option Nat
  | [] => none
  | a :: rest => if p a then some 0 else (findFirstIdx p rest).map (· + 1)

/-- Target-session selection of `handleForwardWebhook`: if a truthy
`creatorId` was parsed, first look for an authenticated session whose stored
`userId` equals it; otherwise (or when that fails) fall back to the first
authenticated session. -/
def routeWebhook (sessions : List WsAttachment) (creatorId : Option String) :
    Option Nat :=
  let primary : Option Nat :=
    match creatorId with
    | some c =>
      if c = "" then none
      else findFirstIdx (fun a => a.authenticated && a.userId == some c) sessions
    | none => none
  match primary with
  | some i => some i
  | none => findFirstIdx (fun a => a.authenticated) sessions

/-- Outcome of the `/forward-webhook` broker handler: HTTP 200 with the
webhook sent to `sessions[target]`, or HTTP 503 (No connected CLI). -/
inductive ForwardResult
  | delivered (target : Nat)
  | noConnectedCli
deriving DecidableEq

/-- `ConnectionHandler.handleForwardWebhook`, given the creatorId parsed
best-effort from the body (`none` for a parse failure or an absent field). -/
def handleForwardWebhook (sessions : List WsAttachment)
    (creatorId : Option String) : ForwardResult :=
  match routeWebhook sessions creatorId with
  | some i => .delivered i
  | none => .noConnectedCli

/-- `forwardWebhookToConnection` answers `response.ok` of the broker
response. -/
def forwardOk : ForwardResult → Bool
  | .delivered _ => true
  | .noConnectedCli => false

/-! ## Webhook ingress -/

/-- JS truthiness of an optional string: present and non-empty. -/
def strTruthy : Option String → Bool
  | none => false
  | some s => s ≠ ""

/-- `handleWebhook` in the ingress route, as the HTTP status it answers.
`hmacHex secret body` stands for the hex-encoded HMAC-SHA256 primitive,
`parseOrgId` for extracting `organizationId` from the JSON body (`none` when
the body is unparsable or the field is falsy), and `relayDelivered` for the
broker round trip `forwardWebhookToConnection`. -/
def handleWebhook (hmacHex : String → String → String)
    (secret : Option String) (signature : Option String) (body : String)
    (parseOrgId : String → Option String) (relayDelivered : Bool) : Nat :=
  let proceed : Nat :=
    match parseOrgId body with
    | none => 400
    | some _ => if relayDelivered then 200 else 503
  if strTruthy secret then
    if strTruthy signature = false then 401
    else if signature.getD "" = hmacHex (secret.getD "") body then proceed
    else 401
  else proceed

/-- The full ingress pipeline: signature check, organizationId extraction,
then the routing outcome of the broker mapped back onto an HTTP status. -/
def webhookIngress (hmacHex : String → String → String)
    (secret signature : Option String) (body : String)
    (parseOrgId parseCreatorId : String → Option String)
    (sessions : List WsAttachment) : Nat :=
  handleWebhook hmacHex secret signature body parseOrgId
    (forwardOk (handleForwardWebhook sessions (parseCreatorId body)))

/-! ## Tenant broker: token refresh -/

/-- Body of a successful refresh-token exchange. -/
structure RefreshResponse where
  access_token : String
  refresh_token : Option String
  expires_in : Int
deriving DecidableEq

/-- `ConnectionHandler.refreshOrgToken`: no-op without a token or refresh
token; on a successful exchange (`some r`) replace the stored token — keeping
the old refresh token when the exchange returns none — and persist; on a
failed exchange (`none`, covering non-2xx and thrown errors) keep the stale
token and write nothing. -/
def refreshOrgToken (st : OrgState) (now : Int)
    (exchange : Option RefreshResponse) : OrgState × List StorageWrite :=
  match st.agentToken with
  | none => (st, [])
  | some tok =>
    if tok.refreshToken = "" then (st, [])
    else
      match exchange with
      | none => (st, [])
      | some r =>
        let tok' : AgentToken :=
          { accessToken := r.access_token
            refreshToken := r.refresh_token.getD tok.refreshToken
            expiresAt := some (now + r.expires_in * 1000)
            scope := tok.scope }
        let st' : OrgState := { st with agentToken := some tok' }
        (st', [StorageWrite.putOrgState st'])

/-- Result of `getOrgToken`: the state and writes it leaves behind, the access
token handed to the relay, and whether a refresh was attempted. -/
structure TokenStep where
  orgState : OrgState
  writes : List StorageWrite
  accessToken : Option String
  attemptedRefresh : Bool
deriving DecidableEq

/-- `ConnectionHandler.getOrgToken`: `none` without a token; otherwise refresh
when `expiresAt` is truthy and `now > expiresAt - 5 min`, then return whatever
access token is stored afterwards. -/
def getOrgToken (st : OrgState) (now : Int)
    (exchange : Option RefreshResponse) : TokenStep :=
  match st.agentToken with
  | none => ⟨st, [], none, false⟩
  | some tok =>
    let needs : Bool :=
      match tok.expiresAt with
      | none => false
      | some e => e != 0 && decide (e - 5 * 60 * 1000 < now)
    if needs then
      let res := refreshOrgToken st now exchange
      ⟨res.1, res.2,
        (match res.1.agentToken with
         | some t => some t.accessToken
         | none => none),
        true⟩
    else ⟨st, [], some tok.accessToken, false⟩

/-! ## Tunnel client: pending-request correlation -/

/-- How a pending `apiCall` promise gets settled. -/
inductive Settlement
  | resolved (body : String)
  | rejected (msg : String)
deriving DecidableEq

/-- An `api_response` payload: `{id, status, body, error?}`. -/
structure ApiResponseMsg where
  id : String
  status : Nat
  body : String
  error : Option String
deriving DecidableEq

/-- Client state relevant to correlation and reconnection: the
`shouldReconnect` flag and the ids of the live `pendingRequests` map. -/
structure ClientState where
  shouldReconnect : Bool
  pendingRequests : List String
deriving DecidableEq

/-- How `handleApiResponse` settles the promise found for `response.id`:
reject with the error text, defaulting to API error with the status, when `error` is truthy or
`status >= 400`, otherwise resolve with the body. -/
def settleOf (r : ApiResponseMsg) : Settlement :=
  if strTruthy r.error || decide (400 ≤ r.status) then
    .rejected (r.error.getD ("API error: " ++ toString r.status))
  else .resolved r.body

/-- `ConnectionClient.handleApiResponse`: look up `response.id` among the
pending requests; if absent do nothing, otherwise evict the entry and settle
that promise (and no other). -/
def handleApiResponse (cs : ClientState) (r : ApiResponseMsg) :
    ClientState × Option (String × Settlement) :=
  if cs.pendingRequests.contains r.id then
    ({ cs with pendingRequests := cs.pendingRequests.erase r.id },
      some (r.id, settleOf r))
  else (cs, none)

/-- The 30-second timeout closure of `apiCall`: if the id is still pending,
evict it and reject with the timeout message; otherwise do nothing. -/
def timeoutFire (cs : ClientState) (id : String) :
    ClientState × Option (String × Settlement) :=
  if cs.pendingRequests.contains id then
    ({ cs with pendingRequests := cs.pendingRequests.erase id },
      some (id, .rejected "API call timeout"))
  else (cs, none)

/-- `ConnectionClient.cleanup`: clear the timers, reject every pending
request with the connection-closed message and empty the map. -/
def cleanup (cs : ClientState) : ClientState × List (String × Settlement) :=
  ({ cs with pendingRequests := [] },
    cs.pendingRequests.map (fun id => (id, Settlement.rejected "Connection closed")))

/-- `ConnectionClient.disconnect`: clear `shouldReconnect`, then `cleanup`. -/
def disconnect (cs : ClientState) : ClientState × List (String × Settlement) :=
  cleanup { cs with shouldReconnect := false }

/-- Client-side events that can occur after a call to `disconnect`. -/
inductive ClientEvent
  | apiResponse (r : ApiResponseMsg)
  | apiTimeout (id : String)
  | socketClose
  | newApiCall (id : String)
deriving DecidableEq

/-- One event step of the client: the new state, the settlements performed,
and whether a reconnect was scheduled (`onclose` schedules one exactly when
`shouldReconnect` is still set). -/
structure StepOut where
  state : ClientState
  settlements : List (String × Settlement)
  reconnectScheduled : Bool

/-- Event-step semantics of the `ConnectionClient` handlers. -/
def stepClient (cs : ClientState) : ClientEvent → StepOut
  | .apiResponse r =>
    let res := handleApiResponse cs r
    ⟨res.1, res.2.toList, false⟩
  | .apiTimeout id =>
    let res := timeoutFire cs id
    ⟨res.1, res.2.toList, false⟩
  | .socketClose =>
    let res := cleanup cs
    ⟨res.1, res.2, cs.shouldReconnect⟩
  | .newApiCall id =>
    ⟨{ cs with pendingRequests := id :: cs.pendingRequests }, [], false⟩

/-- Whether any step along an event trace schedules a reconnect. -/
def anyReconnect (cs : ClientState) : List ClientEvent → Bool
  | [] => false
  | e :: es =>
    (stepClient cs e).reconnectScheduled || anyReconnect (stepClient cs e).state es

/-! ## OAuth controller -/

/-- The round-tripped OAuth state `{csrf, callback?, flow?, orgId?}`. -/
structure OAuthState where
  csrf : String
  callback : Option String
  flow : Option String
  orgId : Option String
deriving DecidableEq

/-- Identity fetched from the upstream GraphQL API in phase A. -/
structure UserInfo where
  userId : String
  email : String
  name : String
  admin : Bool
  organizationId : String
  organizationName : String
deriving DecidableEq

/-- Organization identity fetched from the agent token in phase B. -/
structure OrgInfo where
  organizationId : String
  organizationName : String
deriving DecidableEq

/-- Outcome of the code-for-token exchange: a token response, a non-2xx
answer with its error text, or a thrown error. -/
inductive TokenExchangeResult
  | ok (access_token : String) (refresh_token : Option String)
      (expires_in : Option Int) (scope : Option String)
  | failed (errorText : String)
  | threw (errorText : String)
deriving DecidableEq

/-- The structured result POSTed to the local callback by `returnToCli`. -/
structure CliResult where
  success : Bool
  action : Option String := none
  error : Option String := none
  message : Option String := none
  userId : Option String := none
  email : Option String := none
  name : Option String := none
  organizationId : Option String := none
  organizationName : Option String := none
deriving DecidableEq

/-- Terminal behaviour of an OAuth callback handler: a plain HTTP error
response, the `returnToCli` page (which POSTs the result to the callback
URL), or a 302 redirect into the phase-B (actor=app) flow carrying a new
encoded state. -/
inductive OAuthOutcome
  | httpError (status : Nat) (message : String)
  | cliCallback (callbackUrl : String) (result : CliResult)
  | redirectToAgentFlow (state : OAuthState)
deriving DecidableEq

/-- Outcome of a callback handler together with the broker mutations it
requested (registered users, and whether it stored the org token). -/
structure CallbackStep where
  outcome : OAuthOutcome
  registeredUsers : List OrgUser
  storedOrgToken : Bool
deriving DecidableEq

/-- `handleOAuthCallback` (phase A), with the provider round trip and
upstream fetches supplied as inputs: `error`/`code` are the query parameters,
`state` the decoded state (`none` when absent or undecodable), `exchange` the
code-for-token exchange, `userInfo` the identity fetch, `hasOrgToken` the
answer of the `/has-org-token` broker call and `newCsrf` the freshly generated CSRF
value for the phase-B state. -/
def handleOAuthCallback (error code : Option String)
    (state : Option OAuthState) (exchange : TokenExchangeResult)
    (userInfo : Option UserInfo) (hasOrgToken : Bool) (newCsrf : String) :
    CallbackStep :=
  if strTruthy error then
    ⟨.httpError 400 ("OAuth error: " ++ error.getD ""), [], false⟩
  else if strTruthy code = false then
    ⟨.httpError 400 "Missing authorization code", [], false⟩
  else
    match state.bind (·.callback) with
    | none => ⟨.httpError 400 "Missing callback URL in state", [], false⟩
    | some callbackUrl =>
      if callbackUrl = "" then
        ⟨.httpError 400 "Missing callback URL in state", [], false⟩
      else
        match exchange with
        | .threw t => ⟨.httpError 500 ("OAuth error: " ++ t), [], false⟩
        | .failed t =>
          ⟨.httpError 400 ("Token exchange failed: " ++ t), [], false⟩
        | .ok _ _ _ _ =>
          match userInfo with
          | none =>
            ⟨.cliCallback callbackUrl
              { success := false, error := some "Failed to fetch user info" },
              [], false⟩
          | some u =>
            if hasOrgToken then
              ⟨.cliCallback callbackUrl
                { success := true, action := some "joined",
                  userId := some u.userId, email := some u.email,
                  name := some u.name,
                  organizationId := some u.organizationId,
                  organizationName := some u.organizationName },
                [⟨u.userId, u.email, u.name⟩], false⟩
            else if u.admin then
              ⟨.redirectToAgentFlow
                ⟨newCsrf, some callbackUrl, some "agent", some u.organizationId⟩,
                [], false⟩
            else
              ⟨.cliCallback callbackUrl
                { success := false, error := some "org_not_configured",
                  message := some "Organization not set up for Sniff. Ask a workspace admin to run `sniff auth linear`." },
                [], false⟩

/-- `handleAgentOAuthCallback` (phase B): on a failed or thrown exchange the
result still goes through `returnToCli`; on success the org token is stored,
the admin is best-effort registered, and a `configured` success is pushed. -/
def handleAgentOAuthCallback (error code : Option String)
    (state : Option OAuthState) (exchange : TokenExchangeResult)
    (orgInfo : Option OrgInfo) (adminInfo : Option OrgUser) : CallbackStep :=
  if strTruthy error then
    ⟨.httpError 400 ("OAuth error: " ++ error.getD ""), [], false⟩
  else if strTruthy code = false then
    ⟨.httpError 400 "Missing authorization code", [], false⟩
  else
    match state.bind (·.callback) with
    | none => ⟨.httpError 400 "Missing callback URL in state", [], false⟩
    | some callbackUrl =>
      if callbackUrl = "" then
        ⟨.httpError 400 "Missing callback URL in state", [], false⟩
      else
        match exchange with
        | .threw t =>
          ⟨.cliCallback callbackUrl { success := false, error := some t },
            [], false⟩
        | .failed t =>
          ⟨.cliCallback callbackUrl
            { success := false, error := some ("Token exchange failed: " ++ t) },
            [], false⟩
        | .ok _ _ _ _ =>
          match orgInfo with
          | none =>
            ⟨.cliCallback callbackUrl
              { success := false,
                error := some "Failed to fetch organization info" },
              [], false⟩
          | some org =>
            ⟨.cliCallback callbackUrl
              { success := true, action := some "configured",
                organizationId := some org.organizationId,
                organizationName := some org.organizationName,
                userId := adminInfo.map (·.userId),
                email := adminInfo.map (·.email),
                name := adminInfo.map (·.name) },
              adminInfo.toList, true⟩

/-! ## Lemmas on first-match selection -/

theorem findFirstIdx_some {α : Type} (p : α → Bool) :
    ∀ (l : List α) (i : Nat), findFirstIdx p l = some i →
      ∃ hi : i < l.length, p (l.get ⟨i, hi⟩) = true := by
  intro l
  induction l with
  | nil => intro i h; simp [findFirstIdx] at h
  | cons a rest ih =>
    intro i h
    by_cases hp : p a
    · simp only [findFirstIdx, hp, if_true, Option.some.injEq] at h
      subst h
      exact ⟨Nat.succ_pos _, by simpa using hp⟩
    · simp only [findFirstIdx, hp, if_false, Bool.false_eq_true,
        Option.map_eq_some'] at h
      obtain ⟨j, hj, rfl⟩ := h
      obtain ⟨hji, hpj⟩ := ih j hj
      exact ⟨Nat.succ_lt_succ hji, by simpa using hpj⟩

theorem findFirstIdx_isSome {α : Type} (p : α → Bool) :
    ∀ (l : List α) (i : Nat) (hi : i < l.length),
      p (l.get ⟨i, hi⟩) = true → (findFirstIdx p l).isSome = true := by
  intro l
  induction l with
  | nil => intro i hi; exact absurd hi (Nat.not_lt_zero i)
  | cons a rest ih =>
    intro i hi hp
    by_cases hpa : p a
    · simp [findFirstIdx, hpa]
    · cases i with
      | zero => exact absurd (by simpa using hp) hpa
      | succ j =>
        have := ih j (Nat.lt_of_succ_lt_succ hi) (by simpa using hp)
        obtain ⟨j', hj'⟩ := Option.isSome_iff_exists.mp this
        simp [findFirstIdx, hpa, hj']

theorem findFirstIdx_eq_none {α : Type} (p : α → Bool) :
    ∀ (l : List α), (∀ a ∈ l, p a = false) → findFirstIdx p l = none := by
  intro l
  induction l with
  | nil => intro _; rfl
  | cons a rest ih =>
    intro h
    have ha : p a = false := h a (List.mem_cons_self a rest)
    simp [findFirstIdx, ha, ih fun b hb => h b (List.mem_cons_of_mem a hb)]

/-! ## Claim theorems -/

/-- C1: with no trust token, `authenticate` fails with
the organization-not-configured error regardless of the payload; with a trust token
but an unregistered `userId` it fails; after `registerUser` with that
`userId`, the same payload succeeds and the session attachment becomes
`{authenticated := true, userId, email}`. -/
theorem auth_handshake_token_and_registration
    (st₁ st₂ : OrgState) (att : WsAttachment) (p : AuthPayload) (u : OrgUser)
    (h₁ : st₁.agentToken = none)
    (h₂ : st₂.agentToken.isSome = true)
    (h₃ : lookupUser st₂.users p.userId = none)
    (hu : u.userId = p.userId) :
    (handleAuth st₁ att p).response =
      ⟨false, some "Organization not configured", none⟩ ∧
    (handleAuth st₂ att p).response =
      ⟨false, some "User not registered", none⟩ ∧
    (handleAuth (handleRegisterUser st₂ u).orgState att p).response =
      ⟨true, none, some p.organizationId⟩ ∧
    (handleAuth (handleRegisterUser st₂ u).orgState att p).attachment =
      ⟨true, some p.userId, some p.email⟩ := by
  obtain ⟨tok, htok⟩ := Option.isSome_iff_exists.mp h₂
  have hreg : lookupUser (insertUser st₂.users u) p.userId = some u := by
    rw [← hu]; exact lookupUser_insertUser _ _
  refine ⟨?_, ?_, ?_, ?_⟩
  · simp [handleAuth, h₁]
  · simp [handleAuth, htok, h₃]
  · simp [handleAuth, handleRegisterUser, htok, hreg]
  · simp [handleAuth, handleRegisterUser, htok, hreg]

/-- C1 witness: a concrete tenant without a token, and one with a token on
which registration of `u1` turns the failing auth payload into a success. -/
theorem auth_handshake_token_and_registration_witness :
    (handleAuth ⟨none, []⟩ ⟨false, none, none⟩ ⟨"org", "u1", "u1@x.io"⟩).response =
      ⟨false, some "Organization not configured", none⟩ ∧
    (handleAuth ⟨some ⟨"at", "rt", some 1000, "read"⟩, []⟩ ⟨false, none, none⟩
        ⟨"org", "u1", "u1@x.io"⟩).response =
      ⟨false, some "User not registered", none⟩ ∧
    (handleAuth
        (handleRegisterUser ⟨some ⟨"at", "rt", some 1000, "read"⟩, []⟩
          ⟨"u1", "u1@x.io", "User One"⟩).orgState
        ⟨false, none, none⟩ ⟨"org", "u1", "u1@x.io"⟩).response =
      ⟨true, none, some "org"⟩ ∧
    (handleAuth
        (handleRegisterUser ⟨some ⟨"at", "rt", some 1000, "read"⟩, []⟩
          ⟨"u1", "u1@x.io", "User One"⟩).orgState
        ⟨false, none, none⟩ ⟨"org", "u1", "u1@x.io"⟩).attachment =
      ⟨true, some "u1", some "u1@x.io"⟩ :=
  auth_handshake_token_and_registration ⟨none, []⟩
    ⟨some ⟨"at", "rt", some 1000, "read"⟩, []⟩ ⟨false, none, none⟩
    ⟨"org", "u1", "u1@x.io"⟩ ⟨"u1", "u1@x.io", "User One"⟩ rfl rfl rfl rfl

/-- C10: the auth handshake, successful or not, leaves the persisted tenant
state untouched — same users, same trust token, no storage writes; only the
session attachment and the response differ between its outcomes. -/
theorem auth_frame_effect (st : OrgState) (att : WsAttachment) (p : AuthPayload) :
    (handleAuth st att p).orgState = st ∧
    (handleAuth st att p).writes = [] ∧
    (handleAuth st att p).orgState.users = st.users ∧
    (handleAuth st att p).orgState.agentToken = st.agentToken := by
  unfold handleAuth
  cases h : st.agentToken with
  | none => simp [h]
  | some tok => cases h2 : lookupUser st.users p.userId <;> simp [h]

/-- Whatever target `routeWebhook` selects is an authenticated session. -/
theorem routeWebhook_auth (sessions : List WsAttachment) (cid : Option String)
    (j : Nat) (h : routeWebhook sessions cid = some j) :
    ∃ hj : j < sessions.length,
      (sessions.get ⟨j, hj⟩).authenticated = true := by
  unfold routeWebhook at h
  cases cid with
  | none =>
    simp only at h
    exact findFirstIdx_some _ sessions j h
  | some c =>
    by_cases hc : c = ""
    · simp only [hc, if_true] at h
      exact findFirstIdx_some _ sessions j h
    · simp only [hc, if_false] at h
      cases hfp : findFirstIdx
          (fun a => a.authenticated && a.userId == some c) sessions with
      | none =>
        rw [hfp] at h
        exact findFirstIdx_some _ sessions j h
      | some i =>
        rw [hfp] at h
        cases h
        obtain ⟨hj, hpj⟩ := findFirstIdx_some _ sessions j hfp
        rw [Bool.and_eq_true] at hpj
        exact ⟨hj, hpj.1⟩

/-- With at least one authenticated session, `routeWebhook` selects one. -/
theorem routeWebhook_isSome (sessions : List WsAttachment) (cid : Option String)
    (k : Nat) (hk : k < sessions.length)
    (hka : (sessions.get ⟨k, hk⟩).authenticated = true) :
    (routeWebhook sessions cid).isSome = true := by
  have hfb : (findFirstIdx (fun a => a.authenticated) sessions).isSome = true :=
    findFirstIdx_isSome _ sessions k hk hka
  unfold routeWebhook
  cases cid with
  | none => simpa using hfb
  | some c =>
    by_cases hc : c = ""
    · simpa [hc] using hfb
    · simp only [hc, if_false]
      cases hfp : findFirstIdx
          (fun a => a.authenticated && a.userId == some c) sessions with
      | none => simpa using hfb
      | some i => simp

/-- With no authenticated session at all, `routeWebhook` selects nothing. -/
theorem routeWebhook_none (sessions : List WsAttachment) (cid : Option String)
    (h : ∀ a ∈ sessions, a.authenticated = false) :
    routeWebhook sessions cid = none := by
  have hfb : findFirstIdx (fun a => a.authenticated) sessions = none :=
    findFirstIdx_eq_none _ sessions h
  unfold routeWebhook
  cases cid with
  | none => simpa using hfb
  | some c =>
    by_cases hc : c = ""
    · simpa [hc] using hfb
    · have hfp : findFirstIdx
          (fun a => a.authenticated && a.userId == some c) sessions = none :=
        findFirstIdx_eq_none _ sessions (by
          intro a ha
          simp [h a ha])
      simp [hc, hfp, hfb]

/-- C2: the broker delivers an incoming webhook (a) to an authenticated
session whose stored `userId` equals the routing key when one exists — never
to a session with a different user —, (b) otherwise to some authenticated
session, and (c) with no authenticated session it answers undeliverable,
which the ingress maps to HTTP 503. -/
theorem webhook_routing_priority
    (sessions : List WsAttachment) (c : String) (i : Nat)
    (hi : i < sessions.length) (hc : c ≠ "")
    (hia : (sessions.get ⟨i, hi⟩).authenticated = true)
    (hic : (sessions.get ⟨i, hi⟩).userId = some c)
    (sessions₂ : List WsAttachment) (k : Nat) (hk : k < sessions₂.length)
    (hka : (sessions₂.get ⟨k, hk⟩).authenticated = true)
    (sessions₃ : List WsAttachment)
    (h₃ : ∀ a ∈ sessions₃, a.authenticated = false)
    (hmac : String → String → String) (body : String)
    (parseOrgId parseCreatorId : String → Option String) (orgId : String)
    (hparse : parseOrgId body = some orgId) :
    (∃ j, ∃ hj : j < sessions.length,
        handleForwardWebhook sessions (some c) = .delivered j ∧
        (sessions.get ⟨j, hj⟩).authenticated = true ∧
        (sessions.get ⟨j, hj⟩).userId = some c) ∧
    (∀ cid, ∃ j, ∃ hj : j < sessions₂.length,
        handleForwardWebhook sessions₂ cid = .delivered j ∧
        (sessions₂.get ⟨j, hj⟩).authenticated = true) ∧
    (∀ cid, handleForwardWebhook sessions₃ cid = .noConnectedCli) ∧
    webhookIngress hmac none none body parseOrgId parseCreatorId sessions₃ =
      503 := by
  have hnone : ∀ cid, routeWebhook sessions₃ cid = none := fun cid =>
    routeWebhook_none sessions₃ cid h₃
  refine ⟨?_, ?_, ?_, ?_⟩
  · have hp : (fun a => a.authenticated && a.userId == some c)
        (sessions.get ⟨i, hi⟩) = true := by
      show ((sessions.get ⟨i, hi⟩).authenticated &&
        ((sessions.get ⟨i, hi⟩).userId == some c)) = true
      rw [hia, hic]
      simp
    have hsome := findFirstIdx_isSome
      (fun a => a.authenticated && a.userId == some c) sessions i hi hp
    obtain ⟨j, hj⟩ := Option.isSome_iff_exists.mp hsome
    obtain ⟨hjlen, hpj⟩ := findFirstIdx_some _ sessions j hj
    rw [Bool.and_eq_true] at hpj
    have hroute : routeWebhook sessions (some c) = some j := by
      simp [routeWebhook, hc, hj]
    exact ⟨j, hjlen, by simp [handleForwardWebhook, hroute],
      hpj.1, eq_of_beq hpj.2⟩
  · intro cid
    have hsome := routeWebhook_isSome sessions₂ cid k hk hka
    obtain ⟨j, hj⟩ := Option.isSome_iff_exists.mp hsome
    obtain ⟨hjlen, hja⟩ := routeWebhook_auth sessions₂ cid j hj
    exact ⟨j, hjlen, by simp [handleForwardWebhook, hj], hja⟩
  · intro cid
    simp [handleForwardWebhook, hnone cid]
  · simp [webhookIngress, handleWebhook, strTruthy, hparse,
      handleForwardWebhook, hnone, forwardOk]

/-- C2 witness: two connected sessions route a creator-keyed webhook to the
session of the matching user; a tenant whose only sessions are unauthenticated
yields 503 at the ingress. -/
theorem webhook_routing_priority_witness :
    (∃ j, ∃ hj : j <
        ([⟨true, some "other", some "o@x"⟩,
          ⟨true, some "c1", some "c@x"⟩] : List WsAttachment).length,
        handleForwardWebhook
          [⟨true, some "other", some "o@x"⟩, ⟨true, some "c1", some "c@x"⟩]
          (some "c1") = .delivered j ∧
        (([⟨true, some "other", some "o@x"⟩,
           ⟨true, some "c1", some "c@x"⟩] : List WsAttachment).get
            ⟨j, hj⟩).authenticated = true ∧
        (([⟨true, some "other", some "o@x"⟩,
           ⟨true, some "c1", some "c@x"⟩] : List WsAttachment).get
            ⟨j, hj⟩).userId = some "c1") ∧
    (∀ cid, ∃ j, ∃ hj : j <
        ([⟨false, none, none⟩, ⟨true, some "k", none⟩] :
          List WsAttachment).length,
        handleForwardWebhook
          [⟨false, none, none⟩, ⟨true, some "k", none⟩] cid = .delivered j ∧
        (([⟨false, none, none⟩, ⟨true, some "k", none⟩] :
            List WsAttachment).get ⟨j, hj⟩).authenticated = true) ∧
    (∀ cid, handleForwardWebhook [⟨false, some "c1", none⟩] cid =
        .noConnectedCli) ∧
    webhookIngress (fun _ _ => "") none none "b" (fun _ => some "org")
      (fun _ => none) [⟨false, some "c1", none⟩] = 503 :=
  webhook_routing_priority
    [⟨true, some "other", some "o@x"⟩, ⟨true, some "c1", some "c@x"⟩]
    "c1" 1 (by decide) (by decide) rfl rfl
    [⟨false, none, none⟩, ⟨true, some "k", none⟩] 1 (by decide) rfl
    [⟨false, some "c1", none⟩] (by decide)
    (fun _ _ => "") "b" (fun _ => some "org") (fun _ => none) "org" rfl

/-- C3: with a stored token (truthy `expiresAt = e`, non-empty refresh
token), a relay attempts a refresh exactly when `now > e - 5 min`; a
successful exchange replaces the stored token — keeping the old refresh token
when the exchange returns none — and persists it; a failed exchange leaves
the stale token in place, writes nothing, and still hands the stale access
token to the relay. -/
theorem token_refresh_policy
    (st : OrgState) (tok : AgentToken) (e now₁ now₂ : Int)
    (r : RefreshResponse) (ex₂ : Option RefreshResponse)
    (htok : st.agentToken = some tok)
    (hexp : tok.expiresAt = some e) (he : e ≠ 0)
    (hrt : tok.refreshToken ≠ "")
    (hdue : e - 5 * 60 * 1000 < now₁)
    (hfresh : ¬ e - 5 * 60 * 1000 < now₂) :
    (getOrgToken st now₁ (some r)).attemptedRefresh = true ∧
    (getOrgToken st now₁ none).attemptedRefresh = true ∧
    (getOrgToken st now₂ ex₂).attemptedRefresh = false ∧
    (getOrgToken st now₁ (some r)).orgState.agentToken =
      some ⟨r.access_token, r.refresh_token.getD tok.refreshToken,
        some (now₁ + r.expires_in * 1000), tok.scope⟩ ∧
    (getOrgToken st now₁ (some r)).writes =
      [StorageWrite.putOrgState (getOrgToken st now₁ (some r)).orgState] ∧
    (getOrgToken st now₁ (some r)).accessToken = some r.access_token ∧
    (getOrgToken st now₁ none).orgState = st ∧
    (getOrgToken st now₁ none).writes = [] ∧
    (getOrgToken st now₁ none).accessToken = some tok.accessToken ∧
    (getOrgToken st now₂ ex₂).orgState = st ∧
    (getOrgToken st now₂ ex₂).writes = [] ∧
    (getOrgToken st now₂ ex₂).accessToken = some tok.accessToken := by
  have hdue' : e - 300000 < now₁ := by simpa using hdue
  have hfresh' : ¬ e - 300000 < now₂ := by simpa using hfresh
  refine ⟨?_, ?_, ?_, ?_, ?_, ?_, ?_, ?_, ?_, ?_, ?_, ?_⟩ <;>
    simp [getOrgToken, refreshOrgToken, htok, hexp, he, hrt, hdue', hfresh']

/-- C3 witness: a token expiring at 1 000 000 ms is refreshed at
`now = 1 000 001` (past the 5-minute buffer) and left alone at `now = 0`;
a failed exchange at the due instant keeps the stale token. -/
theorem token_refresh_policy_witness :
    (getOrgToken ⟨some ⟨"old", "rt", some 1000000, "read"⟩, []⟩ 1000001
        (some ⟨"new", none, 3600⟩)).attemptedRefresh = true ∧
    (getOrgToken ⟨some ⟨"old", "rt", some 1000000, "read"⟩, []⟩ 1000001
        none).attemptedRefresh = true ∧
    (getOrgToken ⟨some ⟨"old", "rt", some 1000000, "read"⟩, []⟩ 0
        none).attemptedRefresh = false ∧
    (getOrgToken ⟨some ⟨"old", "rt", some 1000000, "read"⟩, []⟩ 1000001
        (some ⟨"new", none, 3600⟩)).orgState.agentToken =
      some ⟨"new", (none : Option String).getD "rt",
        some ((1000001 : Int) + 3600 * 1000), "read"⟩ ∧
    (getOrgToken ⟨some ⟨"old", "rt", some 1000000, "read"⟩, []⟩ 1000001
        (some ⟨"new", none, 3600⟩)).writes =
      [StorageWrite.putOrgState
        (getOrgToken ⟨some ⟨"old", "rt", some 1000000, "read"⟩, []⟩ 1000001
          (some ⟨"new", none, 3600⟩)).orgState] ∧
    (getOrgToken ⟨some ⟨"old", "rt", some 1000000, "read"⟩, []⟩ 1000001
        (some ⟨"new", none, 3600⟩)).accessToken = some "new" ∧
    (getOrgToken ⟨some ⟨"old", "rt", some 1000000, "read"⟩, []⟩ 1000001
        none).orgState = ⟨some ⟨"old", "rt", some 1000000, "read"⟩, []⟩ ∧
    (getOrgToken ⟨some ⟨"old", "rt", some 1000000, "read"⟩, []⟩ 1000001
        none).writes = [] ∧
    (getOrgToken ⟨some ⟨"old", "rt", some 1000000, "read"⟩, []⟩ 1000001
        none).accessToken = some "old" ∧
    (getOrgToken ⟨some ⟨"old", "rt", some 1000000, "read"⟩, []⟩ 0
        none).orgState = ⟨some ⟨"old", "rt", some 1000000, "read"⟩, []⟩ ∧
    (getOrgToken ⟨some ⟨"old", "rt", some 1000000, "read"⟩, []⟩ 0
        none).writes = [] ∧
    (getOrgToken ⟨some ⟨"old", "rt", some 1000000, "read"⟩, []⟩ 0
        none).accessToken = some "old" :=
  token_refresh_policy ⟨some ⟨"old", "rt", some 1000000, "read"⟩, []⟩
    ⟨"old", "rt", some 1000000, "read"⟩ 1000000 1000001 0
    ⟨"new", none, 3600⟩ none rfl rfl (by decide) (by decide) (by decide)
    (by decide)

/-- C4: a pending `apiCall` is resolved with the upstream body on a 2xx
response without error, rejected with the upstream error message on
`status ≥ 400`, and two concurrent calls with distinct ids are each settled
only by the `api_response` carrying their own id, even out of order. -/
theorem apiCall_settlement_correlation (cs : ClientState)
    (rok rerr : ApiResponseMsg)
    (hokm : rok.id ∈ cs.pendingRequests)
    (herrm : rerr.id ∈ cs.pendingRequests)
    (hne : rok.id ≠ rerr.id)
    (h2a : 200 ≤ rok.status) (h2b : rok.status < 300)
    (hnoerr : rok.error = none)
    (h4 : 400 ≤ rerr.status) :
    (handleApiResponse cs rok).2 = some (rok.id, .resolved rok.body) ∧
    (handleApiResponse cs rerr).2 =
      some (rerr.id,
        .rejected (rerr.error.getD ("API error: " ++ toString rerr.status))) ∧
    rok.id ∈ (handleApiResponse cs rerr).1.pendingRequests ∧
    (handleApiResponse (handleApiResponse cs rerr).1 rok).2 =
      some (rok.id, .resolved rok.body) := by
  have hn4 : ¬ 400 ≤ rok.status :=
    Nat.not_le.mpr (Nat.lt_of_lt_of_le h2b (by norm_num))
  have hsok : settleOf rok = .resolved rok.body := by
    simp [settleOf, strTruthy, hnoerr, hn4]
  have hserr : settleOf rerr =
      .rejected (rerr.error.getD ("API error: " ++ toString rerr.status)) := by
    simp [settleOf, h4]
  have hmem' : rok.id ∈ cs.pendingRequests.erase rerr.id :=
    (List.mem_erase_of_ne hne).mpr hokm
  refine ⟨?_, ?_, ?_, ?_⟩
  · simp [handleApiResponse, hokm, hsok]
  · simp [handleApiResponse, herrm, hserr]
  · simp [handleApiResponse, herrm, hmem']
  · simp [handleApiResponse, herrm, hmem', hsok]

/-- C4 witness: ids `a` and `b` both pending; the 500 response for `b`
arrives first and rejects only `b`, the 200 response for `a` still resolves
`a` with its own body. -/
theorem apiCall_settlement_correlation_witness :
    (handleApiResponse ⟨true, ["a", "b"]⟩ ⟨"a", 200, "ok", none⟩).2 =
      some ("a", .resolved "ok") ∧
    (handleApiResponse ⟨true, ["a", "b"]⟩ ⟨"b", 500, "", some "boom"⟩).2 =
      some ("b",
        .rejected ((some "boom").getD ("API error: " ++ toString 500))) ∧
    "a" ∈ (handleApiResponse ⟨true, ["a", "b"]⟩
        ⟨"b", 500, "", some "boom"⟩).1.pendingRequests ∧
    (handleApiResponse
        (handleApiResponse ⟨true, ["a", "b"]⟩ ⟨"b", 500, "", some "boom"⟩).1
        ⟨"a", 200, "ok", none⟩).2 = some ("a", .resolved "ok") :=
  apiCall_settlement_correlation ⟨true, ["a", "b"]⟩ ⟨"a", 200, "ok", none⟩
    ⟨"b", 500, "", some "boom"⟩ (by decide) (by decide) (by decide)
    (by decide) (by decide) rfl (by decide)

/-- C5: when the 30-second timeout fires for a still-pending id, that call is
rejected with the timeout error and evicted, and an `api_response` for the
same id arriving later is discarded without settling anything. -/
theorem apiCall_timeout_eviction (cs : ClientState) (id : String)
    (hn : cs.pendingRequests.Nodup) (hmem : id ∈ cs.pendingRequests) :
    (timeoutFire cs id).2 = some (id, .rejected "API call timeout") ∧
    id ∉ (timeoutFire cs id).1.pendingRequests ∧
    ∀ r : ApiResponseMsg, r.id = id →
      handleApiResponse (timeoutFire cs id).1 r = ((timeoutFire cs id).1, none) := by
  have hnm : id ∉ cs.pendingRequests.erase id := hn.not_mem_erase
  refine ⟨?_, ?_, ?_⟩
  · simp [timeoutFire, hmem]
  · simp [timeoutFire, hmem, hnm]
  · intro r hr
    simp [handleApiResponse, timeoutFire, hmem, hr, hnm]

/-- C5 witness: id `a` pending, the timeout fires, then a late 200 response
for `a` is ignored. -/
theorem apiCall_timeout_eviction_witness :
    (timeoutFire ⟨true, ["a"]⟩ "a").2 =
      some ("a", .rejected "API call timeout") ∧
    "a" ∉ (timeoutFire ⟨true, ["a"]⟩ "a").1.pendingRequests ∧
    ∀ r : ApiResponseMsg, r.id = "a" →
      handleApiResponse (timeoutFire ⟨true, ["a"]⟩ "a").1 r =
        ((timeoutFire ⟨true, ["a"]⟩ "a").1, none) :=
  apiCall_timeout_eviction ⟨true, ["a"]⟩ "a" (by decide) (by decide)

theorem handleApiResponse_shouldReconnect (cs : ClientState)
    (r : ApiResponseMsg) :
    (handleApiResponse cs r).1.shouldReconnect = cs.shouldReconnect := by
  unfold handleApiResponse
  split <;> rfl

theorem timeoutFire_shouldReconnect (cs : ClientState) (id : String) :
    (timeoutFire cs id).1.shouldReconnect = cs.shouldReconnect := by
  unfold timeoutFire
  split <;> rfl

/-- No client event ever turns `shouldReconnect` back on, and a step only
schedules a reconnect from a state where the flag is still set. -/
theorem stepClient_preserves_flag (cs : ClientState) (e : ClientEvent) :
    (stepClient cs e).state.shouldReconnect = cs.shouldReconnect ∧
    (stepClient cs e).reconnectScheduled = cs.shouldReconnect ∨
    (stepClient cs e).state.shouldReconnect = cs.shouldReconnect ∧
    (stepClient cs e).reconnectScheduled = false := by
  cases e with
  | apiResponse r =>
    exact Or.inr ⟨handleApiResponse_shouldReconnect cs r, rfl⟩
  | apiTimeout id =>
    exact Or.inr ⟨timeoutFire_shouldReconnect cs id, rfl⟩
  | socketClose => exact Or.inl ⟨rfl, rfl⟩
  | newApiCall id => exact Or.inr ⟨rfl, rfl⟩

/-- Once `shouldReconnect` is off, no event trace schedules a reconnect. -/
theorem anyReconnect_eq_false (events : List ClientEvent) :
    ∀ cs : ClientState, cs.shouldReconnect = false →
      anyReconnect cs events = false := by
  induction events with
  | nil => intro cs _; rfl
  | cons e es ih =>
    intro cs h
    rcases stepClient_preserves_flag cs e with ⟨hst, hsc⟩ | ⟨hst, hsc⟩ <;>
      simp [anyReconnect, hsc, h, ih _ (hst.trans h)]

/-- C9: `disconnect()` rejects every outstanding `apiCall` promise with the
connection-closed error, empties the pending map, clears `shouldReconnect`,
and no later event (socket close included) ever schedules a reconnect. -/
theorem disconnect_rejects_and_stops_reconnect (cs : ClientState) :
    (disconnect cs).2 =
      cs.pendingRequests.map
        (fun id => (id, Settlement.rejected "Connection closed")) ∧
    (disconnect cs).1.pendingRequests = [] ∧
    (disconnect cs).1.shouldReconnect = false ∧
    ∀ events : List ClientEvent,
      anyReconnect (disconnect cs).1 events = false := by
  refine ⟨rfl, rfl, rfl, ?_⟩
  intro events
  exact anyReconnect_eq_false events _ rfl

/-- C6: on a phase-A callback for an unconfigured tenant, a non-admin user
gets the terminal org_not_configured failure result pushed to the
callback, while an admin is redirected into the phase-B (actor=app) flow with
csrf, callback, flow agent and orgId as new state and does not fail. -/
theorem oauth_phase_a_unconfigured_org
    (err code : Option String) (st : OAuthState) (cb : String)
    (tokA : String) (rt : Option String) (ei : Option Int) (sc : Option String)
    (u₁ u₂ : UserInfo) (csrf : String)
    (herr : strTruthy err = false)
    (hcode : strTruthy code = true)
    (hcb : st.callback = some cb) (hcbne : cb ≠ "")
    (h₁ : u₁.admin = false) (h₂ : u₂.admin = true) :
    (handleOAuthCallback err code (some st) (.ok tokA rt ei sc) (some u₁)
        false csrf).outcome =
      .cliCallback cb
        { success := false, error := some "org_not_configured",
          message := some "Organization not set up for Sniff. Ask a workspace admin to run `sniff auth linear`." } ∧
    (handleOAuthCallback err code (some st) (.ok tokA rt ei sc) (some u₂)
        false csrf).outcome =
      .redirectToAgentFlow ⟨csrf, some cb, some "agent", some u₂.organizationId⟩ := by
  constructor <;>
    simp [handleOAuthCallback, herr, hcode, hcb, hcbne, h₁, h₂]

/-- C6 witness: concrete non-admin and admin identities on the same
unconfigured tenant. -/
theorem oauth_phase_a_unconfigured_org_witness :
    (handleOAuthCallback none (some "c")
        (some ⟨"x", some "http://localhost:1", some "user", none⟩)
        (.ok "tok" none none none)
        (some ⟨"u", "e", "n", false, "o", "Org"⟩) false "csrf2").outcome =
      .cliCallback "http://localhost:1"
        { success := false, error := some "org_not_configured",
          message := some "Organization not set up for Sniff. Ask a workspace admin to run `sniff auth linear`." } ∧
    (handleOAuthCallback none (some "c")
        (some ⟨"x", some "http://localhost:1", some "user", none⟩)
        (.ok "tok" none none none)
        (some ⟨"u", "e", "n", true, "o", "Org"⟩) false "csrf2").outcome =
      .redirectToAgentFlow ⟨"csrf2", some "http://localhost:1", some "agent",
        some "o"⟩ :=
  oauth_phase_a_unconfigured_org none (some "c")
    ⟨"x", some "http://localhost:1", some "user", none⟩ "http://localhost:1"
    "tok" none none none ⟨"u", "e", "n", false, "o", "Org"⟩
    ⟨"u", "e", "n", true, "o", "Org"⟩ "csrf2" rfl rfl rfl (by decide) rfl rfl

/-- C7 counterexample: a provider error on the phase-A callback is a terminal
OAuth failure, yet the handler answers with a plain HTTP 400 response and
performs no callback push at all. -/
theorem oauth_callback_push_counterexample :
    handleOAuthCallback (some "access_denied") (some "c")
      (some ⟨"x", some "http://localhost:1", some "user", none⟩)
      (.ok "tok" none none none) none false "csrf" =
      ⟨.httpError 400 "OAuth error: access_denied", [], false⟩ := by
  simp [handleOAuthCallback, strTruthy]

/-- C7 amended: phase-A outcomes reached after a successful token exchange
(identity-fetch failure, joined success, org_not_configured) are delivered
via the callback push or continue into the phase-B redirect, and phase-B
outcomes reached after a state carrying a callback URL are always delivered
via the callback push; but phase-A provider errors, missing code, missing
state and failed token exchanges are reported only as plain HTTP error
responses. -/
theorem oauth_terminal_delivery_amended
    (errA codeA : Option String) (stA : OAuthState) (cbA : String)
    (tokA : String) (rtA : Option String) (eiA : Option Int)
    (scA : Option String)
    (uA : Option UserInfo) (hOrg : Bool) (csrfA : String)
    (errF tf : String)
    (errB codeB : Option String) (stB : OAuthState) (cbB : String)
    (exB : TokenExchangeResult) (orgB : Option OrgInfo) (admB : Option OrgUser)
    (herrA : strTruthy errA = false) (hcodeA : strTruthy codeA = true)
    (hcbA : stA.callback = some cbA) (hcbAne : cbA ≠ "")
    (herrF : errF ≠ "")
    (herrB : strTruthy errB = false) (hcodeB : strTruthy codeB = true)
    (hcbB : stB.callback = some cbB) (hcbBne : cbB ≠ "") :
    ((∃ r, (handleOAuthCallback errA codeA (some stA) (.ok tokA rtA eiA scA)
        uA hOrg csrfA).outcome = .cliCallback cbA r) ∨
     (∃ s, (handleOAuthCallback errA codeA (some stA) (.ok tokA rtA eiA scA)
        uA hOrg csrfA).outcome = .redirectToAgentFlow s)) ∧
    (handleOAuthCallback (some errF) codeA (some stA) (.ok tokA rtA eiA scA)
        uA hOrg csrfA).outcome = .httpError 400 ("OAuth error: " ++ errF) ∧
    (handleOAuthCallback none none (some stA) (.ok tokA rtA eiA scA)
        uA hOrg csrfA).outcome = .httpError 400 "Missing authorization code" ∧
    (handleOAuthCallback none codeA none (.ok tokA rtA eiA scA)
        uA hOrg csrfA).outcome =
      .httpError 400 "Missing callback URL in state" ∧
    (handleOAuthCallback errA codeA (some stA) (.failed tf)
        uA hOrg csrfA).outcome =
      .httpError 400 ("Token exchange failed: " ++ tf) ∧
    (∃ r, (handleAgentOAuthCallback errB codeB (some stB) exB orgB
        admB).outcome = .cliCallback cbB r) := by
  refine ⟨?_, ?_, ?_, ?_, ?_, ?_⟩
  · cases uA with
    | none =>
      refine Or.inl
        ⟨{ success := false, error := some "Failed to fetch user info" }, ?_⟩
      simp [handleOAuthCallback, herrA, hcodeA, hcbA, hcbAne]
    | some u =>
      cases hOrg with
      | true =>
        refine Or.inl
          ⟨{ success := true, action := some "joined",
             userId := some u.userId, email := some u.email,
             name := some u.name, organizationId := some u.organizationId,
             organizationName := some u.organizationName }, ?_⟩
        simp [handleOAuthCallback, herrA, hcodeA, hcbA, hcbAne]
      | false =>
        cases hadm : u.admin with
        | true =>
          refine Or.inr
            ⟨⟨csrfA, some cbA, some "agent", some u.organizationId⟩, ?_⟩
          simp [handleOAuthCallback, herrA, hcodeA, hcbA, hcbAne, hadm]
        | false =>
          refine Or.inl
            ⟨{ success := false, error := some "org_not_configured",
               message := some "Organization not set up for Sniff. Ask a workspace admin to run `sniff auth linear`." }, ?_⟩
          simp [handleOAuthCallback, herrA, hcodeA, hcbA, hcbAne, hadm]
  · simp [handleOAuthCallback, strTruthy, herrF]
  · simp [handleOAuthCallback, strTruthy]
  · have h0 : strTruthy (none : Option String) = false := rfl
    simp [handleOAuthCallback, h0, hcodeA]
  · simp [handleOAuthCallback, herrA, hcodeA, hcbA, hcbAne]
  · cases exB with
    | threw t =>
      refine ⟨{ success := false, error := some t }, ?_⟩
      simp [handleAgentOAuthCallback, herrB, hcodeB, hcbB, hcbBne]
    | failed t =>
      refine ⟨{ success := false,
                error := some ("Token exchange failed: " ++ t) }, ?_⟩
      simp [handleAgentOAuthCallback, herrB, hcodeB, hcbB, hcbBne]
    | ok a b c d =>
      cases orgB with
      | none =>
        refine ⟨{ success := false,
                  error := some "Failed to fetch organization info" }, ?_⟩
        simp [handleAgentOAuthCallback, herrB, hcodeB, hcbB, hcbBne]
      | some org =>
        refine ⟨{ success := true, action := some "configured",
                  organizationId := some org.organizationId,
                  organizationName := some org.organizationName,
                  userId := admB.map (·.userId),
                  email := admB.map (·.email),
                  name := admB.map (·.name) }, ?_⟩
        simp [handleAgentOAuthCallback, herrB, hcodeB, hcbB, hcbBne]

/-- C7 amended witness: concrete inputs exercising every clause. -/
theorem oauth_terminal_delivery_amended_witness :
    ((∃ r, (handleOAuthCallback none (some "c")
        (some ⟨"x", some "http://cb", some "user", none⟩)
        (.ok "tok" none none none) none true "cs").outcome =
        .cliCallback "http://cb" r) ∨
     (∃ s, (handleOAuthCallback none (some "c")
        (some ⟨"x", some "http://cb", some "user", none⟩)
        (.ok "tok" none none none) none true "cs").outcome =
        .redirectToAgentFlow s)) ∧
    (handleOAuthCallback (some "denied") (some "c")
        (some ⟨"x", some "http://cb", some "user", none⟩)
        (.ok "tok" none none none) none true "cs").outcome =
      .httpError 400 ("OAuth error: " ++ "denied") ∧
    (handleOAuthCallback none none
        (some ⟨"x", some "http://cb", some "user", none⟩)
        (.ok "tok" none none none) none true "cs").outcome =
      .httpError 400 "Missing authorization code" ∧
    (handleOAuthCallback none (some "c") none
        (.ok "tok" none none none) none true "cs").outcome =
      .httpError 400 "Missing callback URL in state" ∧
    (handleOAuthCallback none (some "c")
        (some ⟨"x", some "http://cb", some "user", none⟩)
        (.failed "bad") none true "cs").outcome =
      .httpError 400 ("Token exchange failed: " ++ "bad") ∧
    (∃ r, (handleAgentOAuthCallback none (some "c")
        (some ⟨"y", some "http://cb2", some "agent", some "o"⟩)
        (.failed "bad") none none).outcome = .cliCallback "http://cb2" r) :=
  oauth_terminal_delivery_amended none (some "c")
    ⟨"x", some "http://cb", some "user", none⟩ "http://cb" "tok" none none
    none none true "cs" "denied" "bad" none (some "c")
    ⟨"y", some "http://cb2", some "agent", some "o"⟩ "http://cb2"
    (.failed "bad") none none rfl rfl rfl (by decide) (by decide) rfl rfl rfl
    (by decide)

/-- C8: with a configured secret, a webhook without a signature header is
rejected 401, any signature differing from the hex HMAC of the exact raw
body — in particular a valid signature presented with a tampered body — is
rejected 401; with no secret the request skips the signature check entirely
and proceeds on the body alone. -/
theorem webhook_signature_verification
    (hmacHex : String → String → String) (s body body2 g g2 : String)
    (parse : String → Option String) (relayOk : Bool) (sig : Option String)
    (hs : s ≠ "")
    (hg : g = hmacHex s body)
    (htamper : hmacHex s body2 ≠ hmacHex s body)
    (hmm : g2 ≠ hmacHex s body) :
    handleWebhook hmacHex (some s) none body parse relayOk = 401 ∧
    handleWebhook hmacHex (some s) (some g2) body parse relayOk = 401 ∧
    handleWebhook hmacHex (some s) (some g) body2 parse relayOk = 401 ∧
    handleWebhook hmacHex none sig body parse relayOk =
      (match parse body with
       | none => 400
       | some _ => if relayOk then 200 else 503) := by
  refine ⟨?_, ?_, ?_, ?_⟩
  · simp [handleWebhook, strTruthy, hs]
  · by_cases hg2 : g2 = ""
    · simp [handleWebhook, strTruthy, hs, hg2]
    · simp [handleWebhook, strTruthy, hs, hg2, hmm]
  · have hgt : g ≠ hmacHex s body2 := by
      rw [hg]
      exact fun h => htamper h.symm
    by_cases hge : g = ""
    · simp [handleWebhook, strTruthy, hs, hge]
    · simp [handleWebhook, strTruthy, hs, hge, hgt]
  · simp [handleWebhook, strTruthy]

/-- C8 witness: with a stand-in HMAC `hmac(s, b) = s ++ b`, secret `sec` and
body `b`: the missing header, a wrong header, and the original header on a
tampered body are all 401; without a secret the tampered body passes straight
through to routing. -/
theorem webhook_signature_verification_witness :
    handleWebhook (fun s b => s ++ b) (some "sec") none "b"
      (fun _ => some "o") true = 401 ∧
    handleWebhook (fun s b => s ++ b) (some "sec") (some "zzz") "b"
      (fun _ => some "o") true = 401 ∧
    handleWebhook (fun s b => s ++ b) (some "sec") (some "secb") "bb"
      (fun _ => some "o") true = 401 ∧
    handleWebhook (fun s b => s ++ b) none (some "secb") "b"
      (fun _ => some "o") true =
      (match (fun (_ : String) => some "o") "b" with
       | none => 400
       | some _ => if true then 200 else 503) :=
  webhook_signature_verification (fun s b => s ++ b) "sec" "b" "bb" "secb"
    "zzz" (fun _ => some "o") true (some "secb") (by decide) rfl (by decide)
    (by decide)

end Sniff
